import Mathlib

/-!
Owner handles under copy: a shallow embedding of the five demonstration programs.

The repository consists of five self-contained programs (`owner-print.c`,
`owner-print.cpp`, `owner-print-manuall.cpp`, `owner-print-returned.cpp`,
`owner-print-autodestruct.cpp`).  Each one allocates a 69 byte buffer, stores the
pointer in an `Owner`, copies the `Owner` by value and then releases it in one way
or another.

The programs only talk to the C library, so the embedding is a state-passing one
over a `World` that records

* the allocator, as an oracle giving the result of the k-th call of `malloc`
  (any value, `NULL` included, so a failing allocation is covered),
* a byte store (a byte is `none` while its value is indeterminate),
* the trace of observable library calls (`malloc`, `printf`, `free`).

`free` is modelled as a recorded call: the programs are judged by how often they
call `free` on a pointer, so a second `free` of the same pointer is counted, not
treated as the end of the execution.  `strcpy` into `NULL` has no defined result
and is modelled as a failure (`none`).
-/

namespace CLib

/-- A `void*`.  The value `0` is the null pointer. -/
abbrev Ptr := Nat

/-- The null pointer, the result of a failed `malloc`. -/
def NULL : Ptr := 0

/-- An observable call of a C library function. -/
inductive Event where
  | malloc (size : Nat) (ret : Ptr)
  | printf (fmt : String) (args : List Ptr)
  | free (ptr : Ptr)
  deriving DecidableEq, Repr

/-- The state of the process as far as the programs can see it. -/
structure World where
  /-- The allocator: `oracle k` is what the k-th call of `malloc` returns. -/
  oracle : Nat → Ptr
  /-- Number of calls of `malloc` made so far. -/
  calls : Nat
  /-- Byte store; `none` is an indeterminate byte. -/
  mem : Nat → Option Nat
  /-- Library calls made so far, oldest first. -/
  trace : List Event

/-- The state of a process at the start of `main`, for a given allocator. -/
def boot (oracle : Nat → Ptr) : World :=
  { oracle := oracle, calls := 0, mem := fun _ => none, trace := [] }

/-- The call `malloc(size)`: the allocator decides the result; a fresh block has
indeterminate content. -/
def malloc (size : Nat) (w : World) : World × Ptr :=
  let p := w.oracle w.calls
  ({ w with
      calls := w.calls + 1
      mem := fun a => if p ≠ NULL ∧ p ≤ a ∧ a < p + size then none else w.mem a
      trace := w.trace ++ [Event.malloc size p] }, p)

/-- The call `printf(fmt, args...)` with pointer arguments. -/
def printf (fmt : String) (args : List Ptr) (w : World) : World :=
  { w with trace := w.trace ++ [Event.printf fmt args] }

/-- The call `free(ptr)`. -/
def free (ptr : Ptr) (w : World) : World :=
  { w with trace := w.trace ++ [Event.free ptr] }

/-- The bytes of a string literal, without the terminator. -/
def literal (s : String) : List Nat :=
  s.toList.map Char.toNat

/-- The store after writing `bytes` from address `dst` on. -/
def writeBytes (mem : Nat → Option Nat) (dst : Ptr) (bytes : List Nat) : Nat → Option Nat :=
  fun a =>
    if dst ≤ a then
      match bytes[a - dst]? with
      | some b => some b
      | none => mem a
    else mem a

/-- The call `strcpy(dst, src)` for a source string `src`: the characters up to the
first NUL are copied, followed by the terminating NUL.  Writing through the null
pointer has no defined result. -/
def strcpy (dst : Ptr) (src : List Nat) (w : World) : Option World :=
  if dst = NULL then none
  else some { w with mem := writeBytes w.mem dst (src.takeWhile (fun c => c ≠ 0) ++ [0]) }

/-- The `n` bytes stored from address `p` on. -/
def load (w : World) (p : Ptr) (n : Nat) : List (Option Nat) :=
  (List.range n).map (fun i => w.mem (p + i))

/-- The string a `%s` conversion reads at `p`: the bytes before the first NUL.
`fuel` bounds the number of bytes looked at; `none` when an indeterminate byte is
met or no NUL is found within `fuel` bytes. -/
def readCString (w : World) (p : Ptr) : Nat → Option (List Nat)
  | 0 => none
  | fuel + 1 =>
    match w.mem p with
    | none => none
    | some 0 => some []
    | some (c + 1) => (readCString w (p + 1) fuel).map (fun cs => (c + 1) :: cs)

/-- The pointers passed to `free`, in call order. -/
def frees : List Event → List Ptr
  | [] => []
  | Event.free p :: t => p :: frees t
  | _ :: t => frees t

/-- The results of the calls of `malloc`, in call order. -/
def mallocs : List Event → List Ptr
  | [] => []
  | Event.malloc _ p :: t => p :: mallocs t
  | _ :: t => mallocs t

/-- How often `free` was called on `p`. -/
def freeCount (p : Ptr) (t : List Event) : Nat :=
  (frees t).count p

end CLib

open CLib

/-! ## `owner-print.c` -/

namespace owner_print_c

/-- The struct `Owner` (lines 4-6). -/
structure Owner where
  owned : Ptr
  deriving DecidableEq, Repr

/-- `void Owner_constructor(Owner* owner)` (lines 8-11); the updated `*owner` is
returned. -/
def Owner_constructor (owner : Owner) (w : World) : World × Owner :=
  let (w, p) := malloc 69 w
  let owner := { owner with owned := p }
  let w := printf "Owner constructed: %p\n" [owner.owned] w
  (w, owner)

/-- `void Owner_destructor(Owner* owner)` (lines 13-16); `*owner` is not written. -/
def Owner_destructor (owner : Owner) (w : World) : World :=
  let w := printf "Owner destructed: %p\n" [owner.owned] w
  free owner.owned w

/-- The inner block of `main` up to line 24: the world and the locals `a`, `b` just
before the two destructor calls.  `a0` is the indeterminate initial content of the
uninitialised local `a`. -/
def main_scope (a0 : Owner) (w : World) : World × Owner × Owner :=
  let a := a0
  let (w, a) := Owner_constructor a w
  let b := a
  let w := printf "b ownes %p\n" [b.owned] w
  (w, a, b)

/-- `int main()` (lines 18-32). -/
def main (a0 : Owner) (w : World) : World × Int :=
  let (w, a, b) := main_scope a0 w
  let w := Owner_destructor a w
  let w := Owner_destructor b w
  let w := printf "Hello, World!\n" [] w
  (w, 0)

end owner_print_c

/-! ## `owner-print.cpp` -/

namespace owner_print_cpp

/-- The struct `Owner` (lines 4-16). -/
structure Owner where
  owned : Ptr
  deriving DecidableEq, Repr

/-- The constructor `Owner::Owner()` (lines 7-10). -/
def Owner.ctor (w : World) : World × Owner :=
  let (w, owned) := malloc 69 w
  let w := printf "Owner constructed: %p\n" [owned] w
  (w, { owned := owned })

/-- The implicitly defined copy constructor of `Owner`: a memberwise copy. -/
def Owner.copy (other : Owner) : Owner :=
  { owned := other.owned }

/-- The destructor `Owner::~Owner()` (lines 12-15). -/
def Owner.dtor (self : Owner) (w : World) : World :=
  let w := printf "Owner destructed: %p\n" [self.owned] w
  free self.owned w

/-- The inner block of `main` (lines 20-22): the world and the locals `a`, `b` at
the closing brace, before any destructor has run. -/
def main_scope (w : World) : World × Owner × Owner :=
  let (w, a) := Owner.ctor w
  let b := Owner.copy a
  let w := printf "b ownes %p\n" [b.owned] w
  (w, a, b)

/-- `int main()` (lines 18-27).  At the closing brace the locals are destroyed in
reverse order of declaration: `b` first, then `a`. -/
def main (w : World) : World × Int :=
  let (w, a, b) := main_scope w
  let w := Owner.dtor b w
  let w := Owner.dtor a w
  let w := printf "Hello, World!\n" [] w
  (w, 0)

end owner_print_cpp

/-! ## `owner-print-manuall.cpp` -/

namespace owner_print_manuall

/-- The struct `Owner` (lines 4-16).  It declares no destructor. -/
structure Owner where
  owned : Ptr
  deriving DecidableEq, Repr

/-- The constructor `Owner::Owner()` (lines 7-10). -/
def Owner.ctor (w : World) : World × Owner :=
  let (w, owned) := malloc 69 w
  let w := printf "Owner constructed: %p\n" [owned] w
  (w, { owned := owned })

/-- The implicitly defined copy constructor of `Owner`: a memberwise copy. -/
def Owner.copy (other : Owner) : Owner :=
  { owned := other.owned }

/-- The member function `void Owner::destruct()` (lines 12-15); the object is not
written. -/
def Owner.destruct (self : Owner) (w : World) : World :=
  let w := printf "Owner destructed: %p\n" [self.owned] w
  free self.owned w

/-- The inner block of `main` (lines 20-24): the world and the locals at the closing
brace. -/
def main_scope (w : World) : World × Owner × Owner :=
  let (w, a) := Owner.ctor w
  let b := Owner.copy a
  let w := printf "b ownes %p\n" [b.owned] w
  let w := Owner.destruct b w
  (w, a, b)

/-- `int main()` (lines 18-29).  `Owner` has no destructor here, so leaving the
block runs no code for `b` and `a`. -/
def main (w : World) : World × Int :=
  let (w, _a, _b) := main_scope w
  let w := printf "Hello, World!\n" [] w
  (w, 0)

end owner_print_manuall

/-! ## `owner-print-autodestruct.cpp` -/

namespace owner_print_autodestruct

/-- The struct `Owner` (lines 4-16).  It declares no destructor. -/
structure Owner where
  owned : Ptr
  deriving DecidableEq, Repr

/-- The constructor `Owner::Owner()` (lines 7-10). -/
def Owner.ctor (w : World) : World × Owner :=
  let (w, owned) := malloc 69 w
  let w := printf "Owner constructed: %p\n" [owned] w
  (w, { owned := owned })

/-- The implicitly defined copy constructor of `Owner`: a memberwise copy. -/
def Owner.copy (other : Owner) : Owner :=
  { owned := other.owned }

/-- The member function `void Owner::destruct()` (lines 12-15). -/
def Owner.destruct (self : Owner) (w : World) : World :=
  let w := printf "Owner destructed: %p\n" [self.owned] w
  free self.owned w

/-- What the template `AutoDestruct<T>` asks of `T`: a default constructor and a
member function `destruct()`. -/
class Destructible (T : Type) where
  construct : World → World × T
  destruct : T → World → World

instance : Destructible Owner where
  construct := Owner.ctor
  destruct := Owner.destruct

/-- The struct template `AutoDestruct<T> : public T` (lines 18-23): a `T` subobject
and no further member. -/
structure AutoDestruct (T : Type) where
  base : T

/-- The implicitly defined default constructor of `AutoDestruct<T>`: it default
constructs the base `T`. -/
def AutoDestruct.ctor {T : Type} [Destructible T] (w : World) : World × AutoDestruct T :=
  let (w, base) := Destructible.construct w
  (w, { base := base })

/-- The destructor `AutoDestruct<T>::~AutoDestruct()` (lines 20-22): calls
`this->destruct()`; the base `T` is destroyed afterwards, which for `Owner` runs no
code. -/
def AutoDestruct.dtor {T : Type} [Destructible T] (self : AutoDestruct T) (w : World) : World :=
  Destructible.destruct self.base w

/-- The inner block of `main` (lines 27-29): the world and the locals at the closing
brace.  `Owner b = a` copy constructs `b` from the `Owner` subobject of `a`. -/
def main_scope (w : World) : World × AutoDestruct Owner × Owner :=
  let (w, a) := (AutoDestruct.ctor w : World × AutoDestruct Owner)
  let b := Owner.copy a.base
  let w := printf "b ownes %p\n" [b.owned] w
  (w, a, b)

/-- `int main()` (lines 25-34).  At the closing brace `b` is destroyed first (an
`Owner`: no code), then `a` through `~AutoDestruct`. -/
def main (w : World) : World × Int :=
  let (w, a, _b) := main_scope w
  let w := AutoDestruct.dtor a w
  let w := printf "Hello, World!\n" [] w
  (w, 0)

end owner_print_autodestruct

/-! ## `owner-print-returned.cpp` -/

namespace owner_print_returned

/-- The struct `Owner` (lines 5-17).  It declares no destructor. -/
structure Owner where
  owned : Ptr
  deriving DecidableEq, Repr

/-- The constructor `Owner::Owner()` (lines 8-11). -/
def Owner.ctor (w : World) : World × Owner :=
  let (w, owned) := malloc 69 w
  let w := printf "Owner constructed: %p\n" [owned] w
  (w, { owned := owned })

/-- The implicitly defined copy constructor of `Owner`: a memberwise copy. -/
def Owner.copy (other : Owner) : Owner :=
  { owned := other.owned }

/-- The member function `void Owner::destruct()` (lines 13-16). -/
def Owner.destruct (self : Owner) (w : World) : World :=
  let w := printf "Owner destructed: %p\n" [self.owned] w
  free self.owned w

/-- `Owner makeMessageOwner()` (lines 19-23).  Returning `o` copies or elides; as
`Owner` has no destructor neither runs any code. -/
def makeMessageOwner (w : World) : Option (World × Owner) :=
  let (w, o) := Owner.ctor w
  match strcpy o.owned (literal "Some message") w with
  | none => none
  | some w => some (w, Owner.copy o)

/-- What the template `AutoDestruct<T>` asks of `T`: a copy constructor, reached by
`T(args...)` for a single argument of type `T`, and a member function `destruct()`. -/
class Destructible (T : Type) where
  copy : T → T
  destruct : T → World → World

instance : Destructible Owner where
  copy := Owner.copy
  destruct := Owner.destruct

/-- The struct template `AutoDestruct<T> : public T` (lines 25-33). -/
structure AutoDestruct (T : Type) where
  base : T

/-- The constructor `AutoDestruct(Args&&... args) : T(args...)` (lines 27-28) for
the one instantiation the program uses, `Args = T`: the base is copy constructed
from the argument. -/
def AutoDestruct.ctor {T : Type} [Destructible T] (args : T) : AutoDestruct T :=
  { base := Destructible.copy args }

/-- The destructor `AutoDestruct<T>::~AutoDestruct()` (lines 30-32). -/
def AutoDestruct.dtor {T : Type} [Destructible T] (self : AutoDestruct T) (w : World) : World :=
  Destructible.destruct self.base w

/-- The inner block of `main` (lines 37-39): the world and the locals at the closing
brace.  The cast constructs an `AutoDestruct<Owner>` from the returned `Owner`, and
that prvalue initialises `a` directly; the returned `Owner` temporary has no
destructor. -/
def main_scope (w : World) : Option (World × AutoDestruct Owner × Owner) :=
  match makeMessageOwner w with
  | none => none
  | some (w, tmp) =>
    let a : AutoDestruct Owner := AutoDestruct.ctor tmp
    let b := Owner.copy a.base
    let w := printf "b ownes `%s`\n" [b.owned] w
    some (w, a, b)

/-- `int main()` (lines 35-44).  At the closing brace `b` is destroyed first (an
`Owner`: no code), then `a` through `~AutoDestruct`. -/
def main (w : World) : Option (World × Int) :=
  match main_scope w with
  | none => none
  | some (w, a, _b) =>
    let w := AutoDestruct.dtor a w
    let w := printf "Hello, World!\n" [] w
    some (w, 0)

end owner_print_returned

/-! ## Facts about the library model -/

namespace CLib

theorem frees_append (s t : List Event) : frees (s ++ t) = frees s ++ frees t := by
  induction s with
  | nil => rfl
  | cons e s ih => cases e <;> simp [frees, ih]

theorem mallocs_append (s t : List Event) : mallocs (s ++ t) = mallocs s ++ mallocs t := by
  induction s with
  | nil => rfl
  | cons e s ih => cases e <;> simp [mallocs, ih]

theorem literal_some_message :
    literal "Some message" = [83, 111, 109, 101, 32, 109, 101, 115, 115, 97, 103, 101] := by
  rfl

theorem takeWhile_some_message :
    (literal "Some message").takeWhile (fun c => c ≠ 0) = literal "Some message" := by
  rw [literal_some_message]; decide

theorem writeBytes_at (mem : Nat → Option Nat) (dst : Ptr) (bytes : List Nat) (i : Nat)
    (hi : i < bytes.length) :
    writeBytes mem dst bytes (dst + i) = bytes[i]? := by
  simp [writeBytes, List.getElem?_eq_getElem hi]

/-- Reading a string back: when the store holds the non-NUL characters `cs` followed
by a NUL from `p` on, every bound of more than `cs.length` bytes reads `cs`. -/
theorem readCString_of_stored (w : World) (cs : List Nat) :
    ∀ (p : Ptr) (fuel : Nat), (∀ c ∈ cs, c ≠ 0) →
      (∀ i, i ≤ cs.length → w.mem (p + i) = (cs ++ [0])[i]?) →
      cs.length + 1 ≤ fuel → readCString w p fuel = some cs := by
  induction cs with
  | nil =>
    intro p fuel _ hmem hf
    obtain ⟨f, rfl⟩ : ∃ f, fuel = f + 1 := ⟨fuel - 1, by simp at hf; omega⟩
    have h0 := hmem 0 (Nat.le_refl _)
    simp at h0
    simp [readCString, h0]
  | cons c cs ih =>
    intro p fuel hnz hmem hf
    obtain ⟨f, rfl⟩ : ∃ f, fuel = f + 1 := ⟨fuel - 1, by simp at hf; omega⟩
    have h0 := hmem 0 (Nat.zero_le _)
    simp at h0
    have hc : c ≠ 0 := hnz c (List.mem_cons_self _ _)
    obtain ⟨d, rfl⟩ : ∃ d, c = d + 1 := ⟨c - 1, by omega⟩
    have ht : readCString w (p + 1) f = some cs := by
      apply ih
      · intro x hx
        exact hnz x (List.mem_cons_of_mem _ hx)
      · intro i hi
        have := hmem (i + 1) (by simp; omega)
        simpa [Nat.add_assoc, Nat.add_comm 1 i] using this
      · simp at hf
        omega
    simp [readCString, h0, ht]

end CLib

/-- The inner block of the `main` of `owner-print-returned.cpp` when `malloc`
succeeds: the state at the closing brace. -/
theorem returned_main_scope_of_malloc_ok (w : World) (hp : w.oracle w.calls ≠ NULL) :
    owner_print_returned.main_scope w = some
      (printf "b ownes `%s`\n" [w.oracle w.calls]
        { (owner_print_returned.Owner.ctor w).1 with
          mem := writeBytes (owner_print_returned.Owner.ctor w).1.mem (w.oracle w.calls)
            (literal "Some message" ++ [0]) },
       { base := { owned := w.oracle w.calls } }, { owned := w.oracle w.calls }) := by
  have ht := takeWhile_some_message
  simp only [ne_eq, decide_not] at ht
  simp [owner_print_returned.main_scope, owner_print_returned.makeMessageOwner,
    owner_print_returned.AutoDestruct.ctor, owner_print_returned.Destructible.copy,
    owner_print_returned.Owner.ctor, owner_print_returned.Owner.copy, strcpy, malloc,
    printf, hp, ht]

/-! ## Bit-copied handles: `owner-print.c` and `owner-print.cpp` -/

/-- C1, as stated, fails: with an allocator that returns the address 4096, `free` is
not called exactly once on that address by the end of `main`, neither in
`owner-print.c` nor in `owner-print.cpp`. -/
theorem bit_copy_release_count_is_not_one :
    freeCount 4096 (owner_print_c.main { owned := 0 } (boot (fun _ => 4096))).1.trace ≠ 1 ∧
    freeCount 4096 (owner_print_cpp.main (boot (fun _ => 4096))).1.trace ≠ 1 := by
  decide

/-- C1, amended: for every allocator, the `main` of `owner-print.c` and the `main` of
`owner-print.cpp` each call `malloc` once, and with `p` the pointer it returned the
calls of `free` are exactly two, both on `p`: one for each of the bit-copied handles
`a` and `b`. -/
theorem bit_copy_releases_twice (oracle : Nat → Ptr) (a0 : owner_print_c.Owner) :
    mallocs (owner_print_c.main a0 (boot oracle)).1.trace = [oracle 0] ∧
    frees (owner_print_c.main a0 (boot oracle)).1.trace = [oracle 0, oracle 0] ∧
    freeCount (oracle 0) (owner_print_c.main a0 (boot oracle)).1.trace = 2 ∧
    mallocs (owner_print_cpp.main (boot oracle)).1.trace = [oracle 0] ∧
    frees (owner_print_cpp.main (boot oracle)).1.trace = [oracle 0, oracle 0] ∧
    freeCount (oracle 0) (owner_print_cpp.main (boot oracle)).1.trace = 2 := by
  simp [owner_print_c.main, owner_print_c.main_scope, owner_print_c.Owner_constructor,
    owner_print_c.Owner_destructor, owner_print_cpp.main, owner_print_cpp.main_scope,
    owner_print_cpp.Owner.ctor, owner_print_cpp.Owner.copy, owner_print_cpp.Owner.dtor,
    malloc, printf, free, boot, frees, mallocs, freeCount]

/-- C2, as stated, fails: for the handle made by the constructor with an allocator
that returns 4096, two releases in a row leave two calls of `free` on 4096 in the
trace where one release leaves one, in `owner-print-manuall.cpp` (`Owner::destruct`)
and in `owner-print.c` (`Owner_destructor`). -/
theorem release_twice_frees_twice_at_4096 :
    freeCount 4096
      (owner_print_manuall.Owner.destruct (owner_print_manuall.Owner.ctor (boot (fun _ => 4096))).2
        (owner_print_manuall.Owner.destruct (owner_print_manuall.Owner.ctor (boot (fun _ => 4096))).2
          (owner_print_manuall.Owner.ctor (boot (fun _ => 4096))).1)).trace = 2 ∧
    freeCount 4096
      (owner_print_manuall.Owner.destruct (owner_print_manuall.Owner.ctor (boot (fun _ => 4096))).2
        (owner_print_manuall.Owner.ctor (boot (fun _ => 4096))).1).trace = 1 ∧
    freeCount 4096
      (owner_print_c.Owner_destructor (owner_print_c.Owner_constructor { owned := 0 } (boot (fun _ => 4096))).2
        (owner_print_c.Owner_destructor (owner_print_c.Owner_constructor { owned := 0 } (boot (fun _ => 4096))).2
          (owner_print_c.Owner_constructor { owned := 0 } (boot (fun _ => 4096))).1)).trace = 2 ∧
    freeCount 4096
      (owner_print_c.Owner_destructor (owner_print_c.Owner_constructor { owned := 0 } (boot (fun _ => 4096))).2
        (owner_print_c.Owner_constructor { owned := 0 } (boot (fun _ => 4096))).1).trace = 1 := by
  decide

/-- C2, amended: release is not idempotent.  In every state and for every handle `h`,
one call of the release operation (`Owner::destruct` of `owner-print-manuall.cpp`,
`Owner_destructor` of `owner-print.c`) adds exactly one call of `free`, on `h.owned`,
so two calls in a row add exactly two. -/
theorem release_frees_on_every_call (w : World)
    (h : owner_print_manuall.Owner) (k : owner_print_c.Owner) :
    frees (owner_print_manuall.Owner.destruct h w).trace = frees w.trace ++ [h.owned] ∧
    frees (owner_print_manuall.Owner.destruct h (owner_print_manuall.Owner.destruct h w)).trace
      = frees w.trace ++ [h.owned, h.owned] ∧
    freeCount h.owned
        (owner_print_manuall.Owner.destruct h (owner_print_manuall.Owner.destruct h w)).trace
      = freeCount h.owned w.trace + 2 ∧
    frees (owner_print_c.Owner_destructor k w).trace = frees w.trace ++ [k.owned] ∧
    frees (owner_print_c.Owner_destructor k (owner_print_c.Owner_destructor k w)).trace
      = frees w.trace ++ [k.owned, k.owned] ∧
    freeCount k.owned
        (owner_print_c.Owner_destructor k (owner_print_c.Owner_destructor k w)).trace
      = freeCount k.owned w.trace + 2 := by
  simp [owner_print_manuall.Owner.destruct, owner_print_c.Owner_destructor, printf, free,
    frees, frees_append, freeCount]

/-- C3, as stated, fails: with an allocator that returns 4096, after `Owner b = a`
it is not the case that `b.owned` differs from `a.owned`, in `owner-print.cpp` and in
`owner-print.c`. -/
theorem copy_aliases_at_4096 :
    ¬ ((owner_print_cpp.main_scope (boot (fun _ => 4096))).2.2.owned
        ≠ (owner_print_cpp.main_scope (boot (fun _ => 4096))).2.1.owned) ∧
    ¬ ((owner_print_c.main_scope { owned := 0 } (boot (fun _ => 4096))).2.2.owned
        ≠ (owner_print_c.main_scope { owned := 0 } (boot (fun _ => 4096))).2.1.owned) := by
  decide

/-- C3, amended: the copy is shallow.  From every state, at the end of the inner block
of `main` (in `owner-print.cpp` and in `owner-print.c`) the two live handles hold the
same pointer, the one returned by the only call of `malloc` the block makes: the copy
`Owner b = a` allocates nothing. -/
theorem copy_is_shallow (w : World) (a0 : owner_print_c.Owner) :
    (owner_print_cpp.main_scope w).2.2.owned = (owner_print_cpp.main_scope w).2.1.owned ∧
    (owner_print_cpp.main_scope w).2.1.owned = w.oracle w.calls ∧
    mallocs (owner_print_cpp.main_scope w).1.trace = mallocs w.trace ++ [w.oracle w.calls] ∧
    (owner_print_c.main_scope a0 w).2.2.owned = (owner_print_c.main_scope a0 w).2.1.owned ∧
    (owner_print_c.main_scope a0 w).2.1.owned = w.oracle w.calls ∧
    mallocs (owner_print_c.main_scope a0 w).1.trace = mallocs w.trace ++ [w.oracle w.calls] := by
  simp [owner_print_cpp.main_scope, owner_print_cpp.Owner.ctor, owner_print_cpp.Owner.copy,
    owner_print_c.main_scope, owner_print_c.Owner_constructor, malloc, printf,
    mallocs, mallocs_append]

/-- C7, as stated, fails: when `malloc` returns the null pointer, the constructor
(`Owner::Owner` of `owner-print.cpp`, `Owner_constructor` of `owner-print.c`) yields a
handle whose `owned` pointer is null. -/
theorem constructor_yields_null_handle :
    (owner_print_cpp.Owner.ctor (boot (fun _ => NULL))).2.owned = NULL ∧
    (owner_print_c.Owner_constructor { owned := 4096 } (boot (fun _ => NULL))).2.owned = NULL := by
  decide

/-- C7, amended: the constructor reports nothing.  In every state it returns a handle
whose `owned` pointer is the result of its call `malloc(69)`, whatever that result is
(the null pointer of a failed allocation included), and the only thing it does besides
is to print that pointer. -/
theorem constructor_stores_malloc_result (w : World) (a0 : owner_print_c.Owner) :
    (owner_print_cpp.Owner.ctor w).2.owned = w.oracle w.calls ∧
    (owner_print_cpp.Owner.ctor w).1.trace = w.trace ++
      [Event.malloc 69 (w.oracle w.calls),
       Event.printf "Owner constructed: %p\n" [w.oracle w.calls]] ∧
    (owner_print_c.Owner_constructor a0 w).2.owned = w.oracle w.calls ∧
    (owner_print_c.Owner_constructor a0 w).1.trace = w.trace ++
      [Event.malloc 69 (w.oracle w.calls),
       Event.printf "Owner constructed: %p\n" [w.oracle w.calls]] := by
  simp [owner_print_cpp.Owner.ctor, owner_print_c.Owner_constructor, malloc, printf]

/-- C8: in `owner-print.cpp`, from every state, constructing a handle (`Owner::Owner`)
and destroying that same handle once (`Owner::~Owner`), with no copy in between, makes
exactly one call of `malloc`, of 69 bytes, and exactly one call of `free`, and the
pointer passed to `free` is the pointer `malloc` returned. -/
theorem construct_then_destroy_frees_once (w : World) :
    (owner_print_cpp.Owner.dtor (owner_print_cpp.Owner.ctor w).2
        (owner_print_cpp.Owner.ctor w).1).trace = w.trace ++
      [Event.malloc 69 (w.oracle w.calls),
       Event.printf "Owner constructed: %p\n" [w.oracle w.calls],
       Event.printf "Owner destructed: %p\n" [w.oracle w.calls],
       Event.free (w.oracle w.calls)] ∧
    mallocs (owner_print_cpp.Owner.dtor (owner_print_cpp.Owner.ctor w).2
        (owner_print_cpp.Owner.ctor w).1).trace = mallocs w.trace ++ [w.oracle w.calls] ∧
    frees (owner_print_cpp.Owner.dtor (owner_print_cpp.Owner.ctor w).2
        (owner_print_cpp.Owner.ctor w).1).trace = frees w.trace ++ [w.oracle w.calls] ∧
    freeCount (w.oracle w.calls) (owner_print_cpp.Owner.dtor (owner_print_cpp.Owner.ctor w).2
        (owner_print_cpp.Owner.ctor w).1).trace = freeCount (w.oracle w.calls) w.trace + 1 := by
  simp [owner_print_cpp.Owner.ctor, owner_print_cpp.Owner.dtor, malloc, printf, free,
    frees, frees_append, mallocs, mallocs_append, freeCount]

/-- C10: from every state and for every allocator, the `main` of `owner-print.c` and
the `main` of `owner-print.cpp` make the same library calls in the same order (the
`malloc(69)`, every `printf` with its format and pointer argument, every `free` with
its pointer argument) and return the same value, although the C program releases `a`
before `b` and the C++ program destroys `b` before `a`. -/
theorem c_main_trace_eq_cpp_main_trace (w : World) (a0 : owner_print_c.Owner) :
    (owner_print_c.main a0 w).1.trace = (owner_print_cpp.main w).1.trace ∧
    (owner_print_c.main a0 w).2 = (owner_print_cpp.main w).2 := by
  simp [owner_print_c.main, owner_print_c.main_scope, owner_print_c.Owner_constructor,
    owner_print_c.Owner_destructor, owner_print_cpp.main, owner_print_cpp.main_scope,
    owner_print_cpp.Owner.ctor, owner_print_cpp.Owner.copy, owner_print_cpp.Owner.dtor,
    malloc, printf, free]

/-! ## `owner-print-manuall.cpp` -/

/-- C9, as stated, fails: with an allocator that returns 4096, the number of calls of
`free` on 4096 at the end of the `main` of `owner-print-manuall.cpp` is not 2. -/
theorem manual_release_count_is_not_two :
    freeCount 4096 (owner_print_manuall.main (boot (fun _ => 4096))).1.trace ≠ 2 := by
  decide

/-- C9, amended: for every allocator, the `main` of `owner-print-manuall.cpp` releases
its single allocation exactly once, by the call `b.destruct()` inside the block.
Leaving the block adds no call (this `Owner` has no destructor): after the block only
the final `printf` runs, so the free count at the end of `main` is 1. -/
theorem manual_variant_releases_once (oracle : Nat → Ptr) :
    mallocs (owner_print_manuall.main (boot oracle)).1.trace = [oracle 0] ∧
    frees (owner_print_manuall.main_scope (boot oracle)).1.trace = [oracle 0] ∧
    (owner_print_manuall.main (boot oracle)).1
      = printf "Hello, World!\n" [] (owner_print_manuall.main_scope (boot oracle)).1 ∧
    frees (owner_print_manuall.main (boot oracle)).1.trace = [oracle 0] ∧
    freeCount (oracle 0) (owner_print_manuall.main (boot oracle)).1.trace = 1 := by
  simp [owner_print_manuall.main, owner_print_manuall.main_scope,
    owner_print_manuall.Owner.ctor, owner_print_manuall.Owner.copy,
    owner_print_manuall.Owner.destruct, malloc, printf, free, boot, frees, mallocs,
    freeCount]

/-! ## `owner-print-autodestruct.cpp` -/

/-- C6: for every allocator, in the `main` of `owner-print-autodestruct.cpp` the copy
`Owner b = a` gives `b` the pointer of `a` and allocates nothing (the block calls
`malloc` once); up to the closing brace `free` is not called; the destructor of `a`
calls `free` once, on that pointer; and nothing else runs at scope exit, so at the end
of `main` the allocation has been freed exactly once. -/
theorem autodestruct_releases_once (oracle : Nat → Ptr) :
    (owner_print_autodestruct.main_scope (boot oracle)).2.2.owned
      = (owner_print_autodestruct.main_scope (boot oracle)).2.1.base.owned ∧
    (owner_print_autodestruct.main_scope (boot oracle)).2.1.base.owned = oracle 0 ∧
    mallocs (owner_print_autodestruct.main_scope (boot oracle)).1.trace = [oracle 0] ∧
    frees (owner_print_autodestruct.main_scope (boot oracle)).1.trace = [] ∧
    frees (owner_print_autodestruct.AutoDestruct.dtor
        (owner_print_autodestruct.main_scope (boot oracle)).2.1
        (owner_print_autodestruct.main_scope (boot oracle)).1).trace = [oracle 0] ∧
    (owner_print_autodestruct.main (boot oracle)).1
      = printf "Hello, World!\n" []
          (owner_print_autodestruct.AutoDestruct.dtor
            (owner_print_autodestruct.main_scope (boot oracle)).2.1
            (owner_print_autodestruct.main_scope (boot oracle)).1) ∧
    mallocs (owner_print_autodestruct.main (boot oracle)).1.trace = [oracle 0] ∧
    frees (owner_print_autodestruct.main (boot oracle)).1.trace = [oracle 0] ∧
    freeCount (oracle 0) (owner_print_autodestruct.main (boot oracle)).1.trace = 1 := by
  simp [owner_print_autodestruct.main, owner_print_autodestruct.main_scope,
    owner_print_autodestruct.AutoDestruct.ctor, owner_print_autodestruct.AutoDestruct.dtor,
    owner_print_autodestruct.Destructible.construct,
    owner_print_autodestruct.Destructible.destruct,
    owner_print_autodestruct.Owner.ctor, owner_print_autodestruct.Owner.copy,
    owner_print_autodestruct.Owner.destruct, malloc, printf, free, boot, frees, mallocs,
    freeCount]

/-! ## `owner-print-returned.cpp` -/

/-- C5: for every allocator whose first `malloc` succeeds, the `main` of
`owner-print-returned.cpp` runs to its end and returns 0; the block is left with no
call of `free` made (neither the returned `Owner` temporary nor the copy `b` frees),
the destructor of `a` calls `free` once, on the pointer `malloc` returned, and nothing
else runs at scope exit: the one allocation is freed exactly once. -/
theorem returned_owner_releases_once (oracle : Nat → Ptr) (hp : oracle 0 ≠ NULL) :
    ∃ ws a b,
      owner_print_returned.main_scope (boot oracle) = some (ws, a, b) ∧
      frees ws.trace = [] ∧
      frees (owner_print_returned.AutoDestruct.dtor a ws).trace = [oracle 0] ∧
      owner_print_returned.main (boot oracle)
        = some (printf "Hello, World!\n" [] (owner_print_returned.AutoDestruct.dtor a ws), 0) ∧
      mallocs (printf "Hello, World!\n" []
        (owner_print_returned.AutoDestruct.dtor a ws)).trace = [oracle 0] ∧
      frees (printf "Hello, World!\n" []
        (owner_print_returned.AutoDestruct.dtor a ws)).trace = [oracle 0] ∧
      freeCount (oracle 0) (printf "Hello, World!\n" []
        (owner_print_returned.AutoDestruct.dtor a ws)).trace = 1 := by
  have hs := returned_main_scope_of_malloc_ok (boot oracle) hp
  refine ⟨_, _, _, hs, ?_⟩
  simp only [owner_print_returned.main, hs]
  simp [owner_print_returned.AutoDestruct.dtor,
    owner_print_returned.Destructible.destruct, owner_print_returned.Owner.ctor,
    owner_print_returned.Owner.destruct, malloc, printf, free, boot, frees, mallocs,
    freeCount]

/-- C5 at the allocator that always returns the address 4096. -/
theorem returned_owner_releases_once_at_4096 :
    (fun _ => 4096 : Nat → Ptr) 0 ≠ NULL ∧
    ∃ ws a b,
      owner_print_returned.main_scope (boot (fun _ => 4096)) = some (ws, a, b) ∧
      frees ws.trace = [] ∧
      frees (owner_print_returned.AutoDestruct.dtor a ws).trace = [4096] ∧
      owner_print_returned.main (boot (fun _ => 4096))
        = some (printf "Hello, World!\n" [] (owner_print_returned.AutoDestruct.dtor a ws), 0) ∧
      mallocs (printf "Hello, World!\n" []
        (owner_print_returned.AutoDestruct.dtor a ws)).trace = [4096] ∧
      frees (printf "Hello, World!\n" []
        (owner_print_returned.AutoDestruct.dtor a ws)).trace = [4096] ∧
      freeCount 4096 (printf "Hello, World!\n" []
        (owner_print_returned.AutoDestruct.dtor a ws)).trace = 1 :=
  ⟨by decide, returned_owner_releases_once (fun _ => 4096) (by decide)⟩

/-- C4: from every state in which the next `malloc` succeeds, the inner block of the
`main` of `owner-print-returned.cpp` reaches line 39 with `b.owned` equal to the
pointer `malloc` returned, no call of `free` made since the start, and the 13 bytes
at `b.owned` equal to the characters of "Some message" followed by NUL: the string
read at `b.owned` (with any bound of at least 13 bytes) is "Some message". -/
theorem returned_owner_content_round_trip (w : World) (hp : w.oracle w.calls ≠ NULL) :
    ∃ ws a b,
      owner_print_returned.main_scope w = some (ws, a, b) ∧
      b.owned = w.oracle w.calls ∧
      frees ws.trace = frees w.trace ∧
      load ws b.owned 13
        = [some 83, some 111, some 109, some 101, some 32, some 109, some 101, some 115,
           some 115, some 97, some 103, some 101, some 0] ∧
      load ws b.owned 13 = (literal "Some message" ++ [0]).map some ∧
      ∀ fuel, 13 ≤ fuel → readCString ws b.owned fuel = some (literal "Some message") := by
  refine ⟨_, _, _, returned_main_scope_of_malloc_ok w hp, rfl, ?_, ?_, ?_, ?_⟩
  · simp [printf, owner_print_returned.Owner.ctor, malloc, frees, frees_append]
  · simp [load, printf, List.range_succ, literal_some_message, writeBytes]
  · simp [load, printf, List.range_succ, literal_some_message, writeBytes]
  · intro fuel hf
    apply readCString_of_stored
    · rw [literal_some_message]; decide
    · intro i hi
      exact writeBytes_at _ _ _ i (by simp at hi ⊢; omega)
    · rw [literal_some_message]; simpa using hf

/-- C4 at the start of a process whose allocator always returns the address 4096. -/
theorem returned_owner_content_round_trip_at_4096 :
    (boot (fun _ => 4096)).oracle (boot (fun _ => 4096)).calls ≠ NULL ∧
    ∃ ws a b,
      owner_print_returned.main_scope (boot (fun _ => 4096)) = some (ws, a, b) ∧
      b.owned = (boot (fun _ => 4096)).oracle (boot (fun _ => 4096)).calls ∧
      frees ws.trace = frees (boot (fun _ => 4096)).trace ∧
      load ws b.owned 13
        = [some 83, some 111, some 109, some 101, some 32, some 109, some 101, some 115,
           some 115, some 97, some 103, some 101, some 0] ∧
      load ws b.owned 13 = (literal "Some message" ++ [0]).map some ∧
      ∀ fuel, 13 ≤ fuel → readCString ws b.owned fuel = some (literal "Some message") :=
  ⟨by decide, returned_owner_content_round_trip (boot (fun _ => 4096)) (by decide)⟩
